import Mathlib

/-!
Verification of the moodboard canvas-compositing engine.

The repository has two canvas-editor variants:
* `src/app/components/CanvasEditor.tsx` (variant 1): the Stage matches the
  canvas size, layer dragging goes through a `dragBoundFunc` clamp, and a
  shared `Transformer` is attached to the selected node.
* `src/unnamed/part_004` (variant 2): the Stage is oversized
  (`max(width*1.5, 1440)` by `max(height*1.5, 810)`) and the image nodes are
  draggable with NO `dragBoundFunc`.

The host pages (`src/unnamed/part_000` and the ProjectViewPage half of
`CanvasEditor.tsx`) hold the scene state (`draggableImages`,
`backgroundImage`, `selectedImageUrls`) and the scene mutations
(`addToMoodboard`, `removeFromMoodboard`, `bringToFront`, `sendToBack`, …).

Numbers are embedded as rationals (`ℚ`); JavaScript strings as `String`.
-/

namespace Moodboard

/-- `FurnitureItem` from CanvasEditor.tsx / part_004: one placed image layer.
`rotation`, `shadow`, `blendMode`, `flipHorizontal` are optional in the TS
type; absent optionals are `none` and are read back with JS defaulting
(`item.rotation || 0`, `!!item.shadow`, `item.flipHorizontal ? -1 : 1`). -/
structure FurnitureItem where
  id : String
  url : String
  x : ℚ
  y : ℚ
  width : ℚ
  height : ℚ
  rotation : Option ℚ := none
  shadow : Option Bool := none
  blendMode : Option String := none
  flipHorizontal : Option Bool := none
deriving DecidableEq, Repr

/-- `DraggableImage` from the host pages (part_000 lines 19–28): the
persisted layer shape. `rotation` and `flipHorizontal` are optional. -/
structure DraggableImage where
  id : String
  url : String
  x : ℚ
  y : ℚ
  width : ℚ
  height : ℚ
  rotation : Option ℚ := none
  flipHorizontal : Option Bool := none
deriving DecidableEq, Repr

/-- `BackgroundImage` from part_000 lines 30–37. `zIndex` is −1 for behind,
0 for same level, 1 for front. -/
structure BackgroundImage where
  url : String
  x : ℚ
  y : ℚ
  width : ℚ
  height : ℚ
  zIndex : ℤ
deriving DecidableEq, Repr

/-- `MaskMode` from CanvasEditor.tsx line 24: `"none" | "brush" | "polygon"`. -/
inductive MaskMode where
  | noMask
  | brush
  | polygon
deriving DecidableEq, Repr

/-- The scene-holding state of the host page (part_000 lines 42–44):
`selectedImageUrls`, `draggableImages` and `backgroundImage`. -/
structure BuilderState where
  selectedImageUrls : List String
  draggableImages : List DraggableImage
  backgroundImage : Option BackgroundImage
deriving DecidableEq, Repr

/-- The empty scene the builder page mounts with (part_000 lines 42–44:
`useState<string[]>([])`, `useState<DraggableImage[]>([])`,
`useState<BackgroundImage | null>(null)`). -/
def emptyBuilderState : BuilderState :=
  { selectedImageUrls := [], draggableImages := [], backgroundImage := none }

/-! ### Drag / move (claim C1)

Variant 1 clamps drags through `dragBoundFunc` (CanvasEditor.tsx lines
440–449); the clamped position is then committed by `handleDragMove`
(lines 106–112).  Variant 2 (part_004 lines 93–99) commits the raw pointer
position: its `KonvaImage` has no `dragBoundFunc`. -/

/-- `dragBoundFunc` from CanvasEditor.tsx lines 440–449:
`maxX = Math.max(0, stageWidth - item.width)`,
`clampedX = Math.min(Math.max(0, pos.x), maxX)`; same for y.  In variant 1
the Stage size equals the canvas size (`stageWidth = width`,
`stageHeight = height`, lines 83–84). -/
def dragBoundFunc (stageWidth stageHeight : ℚ) (item : FurnitureItem)
    (pos : ℚ × ℚ) : ℚ × ℚ :=
  let maxX := max 0 (stageWidth - item.width)
  let maxY := max 0 (stageHeight - item.height)
  (min (max 0 pos.1) maxX, min (max 0 pos.2) maxY)

/-- `handleDragMove` from part_004 lines 93–99 (identical in
CanvasEditor.tsx lines 106–112): writes the given position into the item
with the matching id, leaving every other item unchanged.  In variant 2 the
position arrives unclamped (no `dragBoundFunc` on the node). -/
def handleDragMove (id : String) (pos : ℚ × ℚ)
    (items : List FurnitureItem) : List FurnitureItem :=
  items.map fun it => if it.id = id then { it with x := pos.1, y := pos.2 } else it

/-- The variant-1 drag pipeline: Konva first clamps the pointer position
through the dragged node's `dragBoundFunc`, then `onDragMove` commits
`e.target.position()` (the clamped position) via `handleDragMove`. -/
def dragMoveClamped (stageWidth stageHeight : ℚ) (id : String) (pos : ℚ × ℚ)
    (items : List FurnitureItem) : List FurnitureItem :=
  items.map fun it =>
    if it.id = id then
      let p := dragBoundFunc stageWidth stageHeight it pos
      { it with x := p.1, y := p.2 }
    else it

/-- The canvas-bounds invariant claimed for layer positions:
`0 ≤ x ≤ canvasWidth − width` and `0 ≤ y ≤ canvasHeight − height`. -/
def inCanvasBounds (canvasWidth canvasHeight : ℚ) (it : FurnitureItem) : Prop :=
  0 ≤ it.x ∧ it.x ≤ canvasWidth - it.width ∧
  0 ≤ it.y ∧ it.y ≤ canvasHeight - it.height

instance (w h : ℚ) (it : FurnitureItem) : Decidable (inCanvasBounds w h it) := by
  unfold inCanvasBounds; infer_instance

/-! ### Resize / transform (claim C6) -/

/-- `handleTransformEnd` from CanvasEditor.tsx lines 114–136 (identical in
part_004 lines 101–123): the gesture's final node state gives
`(nodeX, nodeY, scaleX, scaleY, nodeRotation)`; the matching item gets
`width = Math.max(10, it.width * scaleX)`,
`height = Math.max(10, it.height * scaleY)` and `rotation = node.rotation()`
(set directly, not accumulated). -/
def handleTransformEnd (id : String) (nodeX nodeY scaleX scaleY nodeRotation : ℚ)
    (items : List FurnitureItem) : List FurnitureItem :=
  items.map fun it =>
    if it.id = id then
      { it with
        x := nodeX
        y := nodeY
        width := max 10 (it.width * scaleX)
        height := max 10 (it.height * scaleY)
        rotation := some nodeRotation }
    else it

/-! ### Layer reordering (claim C7)

`bringToFront` / `sendToBack` (CanvasEditor.tsx lines 877–897, part_000
lines 421–441) use `findIndex` + `splice` to remove the FIRST item whose id
matches and `push` / `unshift` it.  `List.find?` + `List.eraseP` is the
same remove-first-match operation. -/

/-- `bringToFront` from CanvasEditor.tsx lines 877–886: remove the first
item with the given id and append it at the end; unknown id is a no-op. -/
def bringToFront (imageId : String) (prev : List DraggableImage) :
    List DraggableImage :=
  match prev.find? (fun img => img.id == imageId) with
  | none => prev
  | some item => prev.eraseP (fun img => img.id == imageId) ++ [item]

/-- `sendToBack` from CanvasEditor.tsx lines 888–897: remove the first item
with the given id and reinsert it at the start; unknown id is a no-op. -/
def sendToBack (imageId : String) (prev : List DraggableImage) :
    List DraggableImage :=
  match prev.find? (fun img => img.id == imageId) with
  | none => prev
  | some item => item :: prev.eraseP (fun img => img.id == imageId)

/-! ### Add / remove by URL (claims C5, C10) -/

/-- `addToMoodboard` from part_000 lines 249–263 (identical in
CanvasEditor.tsx lines 774–786).  The JavaScript builds
`id = ` + the url + `-` + `Date.now()` by template-string interpolation;
`Date.now()` is modelled by the decimal string `now` it interpolates, and
the two `Math.random()` draws by `randX, randY ∈ [0,1)`.
The url is appended to `selectedImageUrls` only if not already present;
the new image `{x: randX*300+50, y: randY*200+50, width: 120, height: 120}`
(no `rotation`, no `flipHorizontal` field) is appended at the end. -/
def addToMoodboard (now : String) (randX randY : ℚ) (imageUrl : String)
    (s : BuilderState) : BuilderState :=
  { s with
    selectedImageUrls :=
      if imageUrl ∈ s.selectedImageUrls then s.selectedImageUrls
      else s.selectedImageUrls ++ [imageUrl]
    draggableImages := s.draggableImages ++
      [{ id := imageUrl ++ "-" ++ now
         url := imageUrl
         x := randX * 300 + 50
         y := randY * 200 + 50
         width := 120
         height := 120 }] }

/-- `removeFromMoodboard` from part_000 lines 265–268 (identical in
CanvasEditor.tsx lines 788–791): filters the url out of
`selectedImageUrls` and filters out every draggable image whose url
equals it; `backgroundImage` is not touched. -/
def removeFromMoodboard (imageUrl : String) (s : BuilderState) : BuilderState :=
  { s with
    selectedImageUrls := s.selectedImageUrls.filter (fun u => u ≠ imageUrl)
    draggableImages := s.draggableImages.filter (fun img => img.url ≠ imageUrl) }

/-- `getInstanceCount` from part_000 lines 241–247: counts, url by url, how
many draggable images carry each url (a `Map` incremented per image); the
count for a url is the number of images whose url equals it. -/
def getInstanceCount (images : List DraggableImage) (url : String) : Nat :=
  (images.filter (fun img => img.url == url)).length

/-! ### Export pipeline (claims C3, C4, C9)

`doExport` (CanvasEditor.tsx lines 180–212, part_004 lines 167–199):
hide every `Transformer`, `stage.draw()`, call `stage.toDataURL` once for
PNG and once for JPEG with `pixelRatio: 2, x: 0, y: 0, width, height`
(and `quality: 0.95` for JPEG), restore the saved visibilities, draw again
and hand both data URLs to `onExport`.  There is no try/finally around the
two `toDataURL` calls. -/

/-- The options record passed to `stage.toDataURL` in `doExport`. -/
structure ExportParams where
  pixelRatio : ℚ
  mimeType : String
  quality : Option ℚ
  x : ℚ
  y : ℚ
  width : ℚ
  height : ℚ
deriving DecidableEq, Repr

/-- The two `toDataURL` option records of `doExport` (CanvasEditor.tsx
lines 190–206): PNG and JPEG, both `pixelRatio: 2, x: 0, y: 0,
width: width, height: height`; the JPEG adds `quality: 0.95`, the PNG call
passes no quality. -/
def doExportParams (width height : ℚ) : ExportParams × ExportParams :=
  ({ pixelRatio := 2, mimeType := "image/png", quality := none,
     x := 0, y := 0, width := width, height := height },
   { pixelRatio := 2, mimeType := "image/jpeg", quality := some (95 / 100),
     x := 0, y := 0, width := width, height := height })

/-- A stage point sampled by `toDataURL` with options `p`: the read-back
region is the rect of size `p.width × p.height` starting at `(p.x, p.y)` in
stage coordinates (the `pixelRatio` only supersamples inside that rect). -/
def inExportRegion (p : ExportParams) (q : ℚ × ℚ) : Prop :=
  p.x ≤ q.1 ∧ q.1 < p.x + p.width ∧ p.y ≤ q.2 ∧ q.2 < p.y + p.height

instance (p : ExportParams) (q : ℚ × ℚ) : Decidable (inExportRegion p q) := by
  unfold inExportRegion; infer_instance

/-- Variant 2 stage width, part_004 line 83:
`Math.max(width * 1.5, 1440)`. -/
def stageWidthV2 (width : ℚ) : ℚ := max (width * 3 / 2) 1440

/-- Variant 2 stage height, part_004 line 84:
`Math.max(height * 1.5, 810)`. -/
def stageHeightV2 (height : ℚ) : ℚ := max (height * 3 / 2) 810

/-- The stage state `doExport` mutates: the scene inputs it renders from
and the visibility flags of the `Transformer` nodes it finds via
`stage.find('Transformer')`. -/
structure StageState where
  items : List FurnitureItem
  background : Option BackgroundImage
  maskMode : MaskMode
  polygonPoints : List (ℚ × ℚ)
  transformersVisible : List Bool
deriving DecidableEq, Repr

/-- `doExport` as a state transformer, translated from CanvasEditor.tsx
lines 180–212.  The two `stage.toDataURL` calls are modelled by the
(deterministic) encoder functions `encodePng`/`encodeJpeg` applied to the
stage as drawn during export (transformer handles hidden); an encoder may
throw (`Except.error`), as a tainted canvas or encode failure would.
The translation mirrors the control flow exactly: visibilities are saved
(`prevVisibility`), all transformers hidden, the PNG then the JPEG encode
run, and ONLY on the path where both succeed are the visibilities
restored — the source has no try/finally, so a throwing encode exits with
the transformers still hidden. -/
def doExport (encodePng encodeJpeg : StageState → Except String String)
    (st : StageState) : StageState × Except String (String × String) :=
  let prevVisibility := st.transformersVisible
  let hidden : StageState :=
    { st with transformersVisible := prevVisibility.map (fun _ => false) }
  match encodePng hidden with
  | .error e => (hidden, .error e)
  | .ok png =>
    match encodeJpeg hidden with
    | .error e => (hidden, .error e)
    | .ok jpeg =>
      ({ hidden with transformersVisible := prevVisibility }, .ok (png, jpeg))

/-! ### Export trigger protocol (claim C8)

CanvasEditor.tsx lines 214–226 (identical in part_004 lines 201–213):
`prevExportTokenRef` starts as `null`; each effect run observes
`token = requestExportToken ?? null`; if the ref is still `null` the token
is recorded WITHOUT exporting; otherwise an export fires iff
`token !== null && token !== prevRef`, and only then is the ref updated. -/

/-- One observation step of the export-token effect: given the ref value
and the observed token, returns the new ref value and whether `doExport`
fired. -/
def tokenStep (prev : Option ℤ) (token : Option ℤ) : Option ℤ × Bool :=
  match prev with
  | none => (token, false)
  | some p =>
    match token with
    | none => (some p, false)
    | some t => if t ≠ p then (some t, true) else (some p, false)

/-- Running the export-token effect over a sequence of observed token
values, from a given initial ref value; yields the fire flag of each
observation. -/
def tokenRun : Option ℤ → List (Option ℤ) → List Bool
  | _, [] => []
  | prev, t :: ts =>
    let s := tokenStep prev t
    s.2 :: tokenRun s.1 ts

/-- Helper for `specFireFlags`: after `prev` has been observed, each
observation fires exactly when it differs from the previous observation. -/
def specFireFlagsFrom : Option ℤ → List (Option ℤ) → List Bool
  | _, [] => []
  | prev, t :: ts => decide (t ≠ prev) :: specFireFlagsFrom t ts

/-- Modelled from the spec: the claimed firing pattern — the very first
observed token value never fires, and thereafter an export fires exactly
when the observed value differs from the previously observed value. -/
def specFireFlags : List (Option ℤ) → List Bool
  | [] => []
  | t :: ts => false :: specFireFlagsFrom t ts

/-! ### Polygon masking (claim C2)

`itemsClipFunc` (CanvasEditor.tsx lines 258–276, part_004 lines 245–263)
computes, for polygon mode with at least 6 scalar coordinates, a clip
callback tracing the implicitly closed polygon (`moveTo`/`lineTo`/
`closePath`); for brush mode and otherwise it returns `undefined`.
The JSX, however, never passes it (or any `clipFunc`/`clipX`…) to the
items `<Layer>` (CanvasEditor.tsx lines 351–372, part_004 lines 308–319)
or to any `Group`, so the rendered/exported items layer is unclipped. -/

/-- `polygonKonvaPoints` from CanvasEditor.tsx line 229: the flat
`[x0, y0, x1, y1, …]` scalar list of the polygon points. -/
def polygonKonvaPoints (pts : List (ℚ × ℚ)) : List ℚ :=
  pts.flatMap (fun p => [p.1, p.2])

/-- `itemsClipFunc` from CanvasEditor.tsx lines 258–276: in polygon mode
with `polygonKonvaPoints.length >= 6` it yields the clip path — the point
list traced and closed (`closePath`) — otherwise (brush mode included) it
yields `undefined` (`none`). -/
def itemsClipFunc (maskMode : MaskMode) (konvaPoints : List ℚ) :
    Option (List ℚ) :=
  if maskMode = MaskMode.polygon ∧ 6 ≤ konvaPoints.length then
    some konvaPoints
  else none

/-- Even–odd (crossing-number) test of one implicitly closed polygon edge
`a → b` against the horizontal ray from `p` to the right. -/
def edgeCrossesRay (p a b : ℚ × ℚ) : Bool :=
  (decide ((a.2 ≤ p.2 ∧ p.2 < b.2) ∨ (b.2 ≤ p.2 ∧ p.2 < a.2))) &&
  decide (p.1 < a.1 + (p.2 - a.2) * (b.1 - a.1) / (b.2 - a.2))

/-- Point-in-polygon for the implicitly closed polygon through `pts`
(last point connected back to the first, as `closePath` does): the
even–odd rule over all edges. -/
def pointInClosedPolygon (pts : List (ℚ × ℚ)) (p : ℚ × ℚ) : Bool :=
  (List.zipWith (fun a b => edgeCrossesRay p a b) pts (pts.rotate 1)).count true % 2 = 1

/-- The items `<Layer>` as the JSX renders it: its clip and its nodes.
A `clip = none` layer paints everywhere its nodes cover; a
`clip = some pts` layer paints only inside the closed polygon `pts`. -/
structure RenderedItemsLayer where
  clip : Option (List (ℚ × ℚ))
  nodes : List FurnitureItem
deriving Repr

/-- The items `<Layer>` built by the JSX of BOTH variants (CanvasEditor.tsx
lines 351–372, part_004 lines 308–319): the element receives only the item
children — no `clipFunc` prop is passed (the computed `itemsClipFunc` is
never referenced in the returned JSX) — so the layer's clip is `none`
regardless of the mask mode and polygon points. -/
def renderedItemsLayer (items : List FurnitureItem) (_maskMode : MaskMode)
    (_polygonPoints : List (ℚ × ℚ)) : RenderedItemsLayer :=
  { clip := none, nodes := items }

/-- Whether an unrotated item's footprint covers a stage point: the node
rect `[x, x+width) × [y, y+height)`, mirrored about the node origin when
`flipHorizontal` (the node is drawn with `scaleX = -1`).  Rotation about
the centre is not modelled; coverage is evaluated only at layers whose
rotation is absent or 0. -/
def itemCovers (it : FurnitureItem) (p : ℚ × ℚ) : Bool :=
  let x0 := if it.flipHorizontal.getD false then it.x - it.width else it.x
  decide (x0 ≤ p.1 ∧ p.1 < x0 + it.width ∧ it.y ≤ p.2 ∧ p.2 < it.y + it.height)

/-- Whether the rendered items layer paints at a stage point: the point
passes the layer clip (vacuously, when `clip = none`) and some item node
covers it. -/
def layerPaintsAt (layer : RenderedItemsLayer) (p : ℚ × ℚ) : Bool :=
  (match layer.clip with
   | none => true
   | some pts => pointInClosedPolygon pts p) &&
  layer.nodes.any (fun it => itemCovers it p)

/-! ### Concrete fixtures used by witnesses and counterexamples -/

/-- A placed layer of the default initial size, well inside a 960×540
canvas. -/
def cxDragItem : FurnitureItem :=
  { id := "a", url := "u", x := 60, y := 60, width := 120, height := 120 }

/-- Three distinct layers for the reorder round-trip scenario. -/
def imgA : DraggableImage :=
  { id := "a", url := "ua", x := 10, y := 10, width := 120, height := 120 }

/-- Second layer of the reorder scenario. -/
def imgB : DraggableImage :=
  { id := "b", url := "ub", x := 20, y := 20, width := 120, height := 120 }

/-- Third layer of the reorder scenario. -/
def imgC : DraggableImage :=
  { id := "c", url := "uc", x := 30, y := 30, width := 120, height := 120 }

/-- A second instance sharing `imgA`'s url, for the remove-by-URL
scenario. -/
def imgA2 : DraggableImage :=
  { id := "a2", url := "ua", x := 40, y := 40, width := 120, height := 120 }

/-- A concrete background record (sized larger than the canvas, as in the
spec's export scenario). -/
def cxBackground : BackgroundImage :=
  { url := "bg", x := -100, y := -50, width := 1200, height := 700, zIndex := -1 }

/-- A builder state holding two urls, one of them twice, plus a
background. -/
def cxBuilderState : BuilderState :=
  { selectedImageUrls := ["ua", "ub"]
    draggableImages := [imgA, imgB, imgA2]
    backgroundImage := some cxBackground }

/-- A stage with one visible transformer, for the export state scenarios. -/
def cxStage : StageState :=
  { items := [cxDragItem], background := some cxBackground,
    maskMode := MaskMode.noMask, polygonPoints := [],
    transformersVisible := [true] }

/-- The usable 3-point polygon of the masking scenario
(6 scalar coordinates once flattened). -/
def triPoints : List (ℚ × ℚ) := [(0, 0), (10, 0), (10, 10)]

/-- An unrotated layer lying entirely outside `triPoints`. -/
def cxMaskItem : FurnitureItem :=
  { id := "m", url := "u", x := 400, y := 250, width := 120, height := 120 }

/-! ### Helper lemmas -/

/-- `String.append` cancels on the left. -/
theorem string_append_cancel_left {a b c : String} (h : a ++ b = a ++ c) :
    b = c := by
  apply String.ext
  have hd := congrArg String.data h
  rw [String.data_append, String.data_append] at hd
  exact List.append_cancel_left hd

/-- Erasing the first `p`-element does not change the `¬p` sublist. -/
theorem filter_not_eraseP {α : Type _} (p : α → Bool) (l : List α) :
    (l.eraseP p).filter (fun a => !p a) = l.filter (fun a => !p a) := by
  induction l with
  | nil => rfl
  | cons a l ih =>
    by_cases h : p a
    · simp [List.eraseP_cons, h, List.filter_cons]
    · simp only [List.eraseP_cons, h, cond_false, List.filter_cons,
        Bool.not_eq_true', h, ih]

/-- `bringToFront` preserves the sublist of layers with a different id. -/
theorem bringToFront_filter_ne (imageId : String) (l : List DraggableImage) :
    (bringToFront imageId l).filter (fun img => !(img.id == imageId))
      = l.filter (fun img => !(img.id == imageId)) := by
  unfold bringToFront
  cases hf : l.find? (fun img => img.id == imageId) with
  | none => rfl
  | some item =>
    have hp := List.find?_some hf
    simp [List.filter_append, filter_not_eraseP, hp]

/-- `sendToBack` preserves the sublist of layers with a different id. -/
theorem sendToBack_filter_ne (imageId : String) (l : List DraggableImage) :
    (sendToBack imageId l).filter (fun img => !(img.id == imageId))
      = l.filter (fun img => !(img.id == imageId)) := by
  unfold sendToBack
  cases hf : l.find? (fun img => img.id == imageId) with
  | none => rfl
  | some item =>
    have hp := List.find?_some hf
    simp [List.filter_cons, filter_not_eraseP, hp]

/-- Unfolding of `doExport` with its let-bindings inlined; on the
successful branch the restored state is definitionally the input state
(structure eta). -/
theorem doExport_eq (encP encJ : StageState → Except String String)
    (st : StageState) :
    doExport encP encJ st =
      match encP { st with
          transformersVisible := st.transformersVisible.map (fun _ => false) } with
      | Except.error e =>
        ({ st with
            transformersVisible := st.transformersVisible.map (fun _ => false) },
          Except.error e)
      | Except.ok png =>
        match encJ { st with
            transformersVisible := st.transformersVisible.map (fun _ => false) } with
        | Except.error e =>
          ({ st with
              transformersVisible := st.transformersVisible.map (fun _ => false) },
            Except.error e)
        | Except.ok jpeg => (st, Except.ok (png, jpeg)) := rfl

end Moodboard

namespace Moodboard

/-! ### Claim theorems -/

/-- C3: export reads back exactly the `width × height` region at the
canvas origin — the `toDataURL` rect is `(0, 0, width, height)` and every
sampled stage point lies inside the canvas bounds, even though variant 2's
editing stage is at least as large as the canvas — at supersampling pixel
ratio 2 (≥ 2), once as PNG with no lossy quality parameter and once as
JPEG with quality 0.95. -/
theorem doExport_crops_canvas_region (width height : ℚ) :
    (doExportParams width height).1.pixelRatio = 2 ∧
    (doExportParams width height).2.pixelRatio = 2 ∧
    2 ≤ (doExportParams width height).1.pixelRatio ∧
    2 ≤ (doExportParams width height).2.pixelRatio ∧
    (doExportParams width height).1.mimeType = "image/png" ∧
    (doExportParams width height).1.quality = none ∧
    (doExportParams width height).2.mimeType = "image/jpeg" ∧
    (doExportParams width height).2.quality = some (95 / 100) ∧
    (doExportParams width height).1.x = 0 ∧
    (doExportParams width height).1.y = 0 ∧
    (doExportParams width height).1.width = width ∧
    (doExportParams width height).1.height = height ∧
    (doExportParams width height).2.x = 0 ∧
    (doExportParams width height).2.y = 0 ∧
    (doExportParams width height).2.width = width ∧
    (doExportParams width height).2.height = height ∧
    width ≤ stageWidthV2 width ∧ height ≤ stageHeightV2 height ∧
    (∀ q : ℚ × ℚ,
      inExportRegion (doExportParams width height).1 q ∨
        inExportRegion (doExportParams width height).2 q →
      0 ≤ q.1 ∧ q.1 < width ∧ 0 ≤ q.2 ∧ q.2 < height) := by
  refine ⟨rfl, rfl, le_refl _, le_refl _, rfl, rfl, rfl, rfl, rfl, rfl, rfl,
    rfl, rfl, rfl, rfl, rfl, ?_, ?_, ?_⟩
  · rcases le_total width 1440 with h | h
    · exact h.trans (le_max_right _ _)
    · exact le_trans (by linarith) (le_max_left (width * 3 / 2) 1440)
  · rcases le_total height 810 with h | h
    · exact h.trans (le_max_right _ _)
    · exact le_trans (by linarith) (le_max_left (height * 3 / 2) 810)
  · rintro q (hq | hq) <;>
    · obtain ⟨h1, h2, h3, h4⟩ := hq
      simp only [doExportParams] at h1 h2 h3 h4
      refine ⟨h1, by linarith, h3, by linarith⟩

/-- Witness for C3 at the spec scenario size 960×540: the stage point
`(100, 100)` of the PNG read-back region lies inside the canvas. -/
theorem doExport_crops_canvas_region_witness :
    0 ≤ (100 : ℚ) ∧ (100 : ℚ) < 960 ∧ 0 ≤ (100 : ℚ) ∧ (100 : ℚ) < 540 := by
  have h := doExport_crops_canvas_region 960 540
  exact h.2.2.2.2.2.2.2.2.2.2.2.2.2.2.2.2.2.2 (100, 100)
    (Or.inl (by norm_num [inExportRegion, doExportParams]))

/-- C6: `handleTransformEnd` on the layer with the gesture's id sets
`width = max 10 (oldWidth * scaleX)`, `height = max 10 (oldHeight * scaleY)`
and rotation directly to the gesture's final angle (not accumulated);
consequently the resized layer satisfies `width ≥ 10` and `height ≥ 10`. -/
theorem handleTransformEnd_spec (id : String) (nx ny sx sy r : ℚ)
    (items : List FurnitureItem) (j : ℕ) (hj : j < items.length)
    (hid : (items.get ⟨j, hj⟩).id = id) :
    ∃ hj2 : j < (handleTransformEnd id nx ny sx sy r items).length,
      ((handleTransformEnd id nx ny sx sy r items).get ⟨j, hj2⟩).width
          = max 10 ((items.get ⟨j, hj⟩).width * sx) ∧
      ((handleTransformEnd id nx ny sx sy r items).get ⟨j, hj2⟩).height
          = max 10 ((items.get ⟨j, hj⟩).height * sy) ∧
      ((handleTransformEnd id nx ny sx sy r items).get ⟨j, hj2⟩).rotation
          = some r ∧
      10 ≤ ((handleTransformEnd id nx ny sx sy r items).get ⟨j, hj2⟩).width ∧
      10 ≤ ((handleTransformEnd id nx ny sx sy r items).get ⟨j, hj2⟩).height := by
  have hlen : (handleTransformEnd id nx ny sx sy r items).length = items.length := by
    simp [handleTransformEnd]
  refine ⟨by rw [hlen]; exact hj, ?_⟩
  have hget : (handleTransformEnd id nx ny sx sy r items).get ⟨j, by rw [hlen]; exact hj⟩
      = if (items.get ⟨j, hj⟩).id = id then
          { items.get ⟨j, hj⟩ with
            x := nx, y := ny,
            width := max 10 ((items.get ⟨j, hj⟩).width * sx),
            height := max 10 ((items.get ⟨j, hj⟩).height * sy),
            rotation := some r }
        else items.get ⟨j, hj⟩ := by
    simp [handleTransformEnd, List.get_map]
  rw [hget, if_pos hid]
  exact ⟨rfl, rfl, rfl, le_max_left _ _, le_max_left _ _⟩

/-- Witness for C6: resizing the concrete 120×120 layer by
`(scaleX, scaleY) = (3, 1/20)` with final angle 45 gives
`width = max 10 360`, `height = max 10 6` and rotation 45. -/
theorem handleTransformEnd_spec_witness :
    ∃ hj2 : 0 < (handleTransformEnd "a" 1 2 3 (1/20) 45 [cxDragItem]).length,
      ((handleTransformEnd "a" 1 2 3 (1/20) 45 [cxDragItem]).get ⟨0, hj2⟩).width
          = max 10 (([cxDragItem].get ⟨0, by decide⟩).width * 3) ∧
      ((handleTransformEnd "a" 1 2 3 (1/20) 45 [cxDragItem]).get ⟨0, hj2⟩).height
          = max 10 (([cxDragItem].get ⟨0, by decide⟩).height * (1/20)) ∧
      ((handleTransformEnd "a" 1 2 3 (1/20) 45 [cxDragItem]).get ⟨0, hj2⟩).rotation
          = some 45 ∧
      10 ≤ ((handleTransformEnd "a" 1 2 3 (1/20) 45 [cxDragItem]).get ⟨0, hj2⟩).width ∧
      10 ≤ ((handleTransformEnd "a" 1 2 3 (1/20) 45 [cxDragItem]).get ⟨0, hj2⟩).height :=
  handleTransformEnd_spec "a" 1 2 3 (1/20) 45 [cxDragItem] 0 (by decide) rfl

/-- C7: `bringToFront` immediately followed by `sendToBack` on a layer id
present in the list restores the original relative order of every other
layer (the round-trip preserves the full ordering of everyone else). -/
theorem bringToFront_sendToBack_roundtrip (imageId : String)
    (prev : List DraggableImage) (hmem : ∃ img ∈ prev, img.id = imageId) :
    (sendToBack imageId (bringToFront imageId prev)).filter
        (fun img => !(img.id == imageId))
      = prev.filter (fun img => !(img.id == imageId)) := by
  rw [sendToBack_filter_ne, bringToFront_filter_ne]

/-- Witness for C7 on the concrete scene `[A, B, C]` with id `"b"`. -/
theorem bringToFront_sendToBack_roundtrip_witness :
    (sendToBack "b" (bringToFront "b" [imgA, imgB, imgC])).filter
        (fun img => !(img.id == "b"))
      = [imgA, imgB, imgC].filter (fun img => !(img.id == "b")) :=
  bringToFront_sendToBack_roundtrip "b" [imgA, imgB, imgC]
    ⟨imgB, by simp, rfl⟩

/-- C10: `removeFromMoodboard` removes, in one call, every layer whose url
equals the given url, keeps all other layers in their original relative
order (the result is an order-preserving sublist containing every
other-url layer), leaves the background unchanged, and removes the url
from the selected-URLs list. -/
theorem removeFromMoodboard_spec (url : String) (s : BuilderState) :
    (∀ img ∈ (removeFromMoodboard url s).draggableImages, img.url ≠ url) ∧
    ((removeFromMoodboard url s).draggableImages.Sublist s.draggableImages) ∧
    (∀ img ∈ s.draggableImages, img.url ≠ url →
      img ∈ (removeFromMoodboard url s).draggableImages) ∧
    getInstanceCount (removeFromMoodboard url s).draggableImages url = 0 ∧
    (removeFromMoodboard url s).backgroundImage = s.backgroundImage ∧
    url ∉ (removeFromMoodboard url s).selectedImageUrls := by
  refine ⟨?_, ?_, ?_, ?_, rfl, ?_⟩
  · intro img himg
    have := (List.mem_filter.1 himg).2
    simpa using this
  · exact List.filter_sublist _
  · intro img hmem hne
    exact List.mem_filter.2 ⟨hmem, by simpa using hne⟩
  · simp only [getInstanceCount, removeFromMoodboard, List.length_eq_zero,
      List.filter_filter]
    apply List.filter_eq_nil.2
    intro img _
    simp
  · intro hmem
    have := (List.mem_filter.1 hmem).2
    simp at this

/-- Witness for C10 on a concrete scene: removing url `"ua"` (present
twice) empties its instances, keeps `imgB`, keeps the background and drops
`"ua"` from the selected urls. -/
theorem removeFromMoodboard_spec_witness :
    imgB.url ≠ "ua" ∧
    imgB ∈ (removeFromMoodboard "ua" cxBuilderState).draggableImages ∧
    getInstanceCount (removeFromMoodboard "ua" cxBuilderState).draggableImages "ua" = 0 ∧
    (removeFromMoodboard "ua" cxBuilderState).backgroundImage = some cxBackground ∧
    "ua" ∉ (removeFromMoodboard "ua" cxBuilderState).selectedImageUrls := by
  have h := removeFromMoodboard_spec "ua" cxBuilderState
  refine ⟨by decide, h.2.2.1 imgB (by simp [cxBuilderState]) (by decide),
    h.2.2.2.1, h.2.2.2.2.1, h.2.2.2.2.2⟩

/-- C1 counterexample: in the part_004 variant the drag commit is NOT
clamped — moving the in-bounds 120×120 layer to `(-5, 600)` on a 960×540
canvas stores exactly `(-5, 600)`, violating
`0 ≤ x ≤ canvasWidth − width ∧ 0 ≤ y ≤ canvasHeight − height`. -/
theorem handleDragMove_escapes_canvas :
    (handleDragMove "a" (-5, 600) [cxDragItem]).head?
        = some { cxDragItem with x := -5, y := 600 } ∧
    inCanvasBounds 960 540 cxDragItem ∧
    ¬ inCanvasBounds 960 540 { cxDragItem with x := -5, y := 600 } :=
  ⟨by decide, by norm_num [inCanvasBounds, cxDragItem],
   by norm_num [inCanvasBounds, cxDragItem]⟩

/-- The clamped position produced by `dragBoundFunc` lies in
`[0, stageWidth − width] × [0, stageHeight − height]` whenever the item
fits the stage. -/
theorem dragBoundFunc_mem (cw ch : ℚ) (it : FurnitureItem) (pos : ℚ × ℚ)
    (hw : it.width ≤ cw) (hh : it.height ≤ ch) :
    0 ≤ (dragBoundFunc cw ch it pos).1 ∧
    (dragBoundFunc cw ch it pos).1 ≤ cw - it.width ∧
    0 ≤ (dragBoundFunc cw ch it pos).2 ∧
    (dragBoundFunc cw ch it pos).2 ≤ ch - it.height := by
  unfold dragBoundFunc
  refine ⟨le_min (le_max_left _ _) (le_max_left _ _),
    (min_le_right _ _).trans (le_of_eq (max_eq_right (by linarith))),
    le_min (le_max_left _ _) (le_max_left _ _),
    (min_le_right _ _).trans (le_of_eq (max_eq_right (by linarith)))⟩

/-- One clamped drag-move preserves both the size-fits side conditions and
the canvas-bounds invariant of every layer. -/
theorem dragMoveClamped_step (cw ch : ℚ) (id : String) (pos : ℚ × ℚ)
    (items : List FurnitureItem)
    (hfit : ∀ it ∈ items, it.width ≤ cw ∧ it.height ≤ ch)
    (hinit : ∀ it ∈ items, inCanvasBounds cw ch it) :
    (∀ it ∈ dragMoveClamped cw ch id pos items,
      it.width ≤ cw ∧ it.height ≤ ch) ∧
    (∀ it ∈ dragMoveClamped cw ch id pos items, inCanvasBounds cw ch it) := by
  constructor <;> intro it hit <;>
    simp only [dragMoveClamped, List.mem_map] at hit <;>
    obtain ⟨it0, h0, rfl⟩ := hit <;>
    by_cases h : it0.id = id
  · simp only [if_pos h]
    exact hfit it0 h0
  · simp only [if_neg h]
    exact hfit it0 h0
  · simp only [if_pos h]
    obtain ⟨hw, hh⟩ := hfit it0 h0
    obtain ⟨b1, b2, b3, b4⟩ := dragBoundFunc_mem cw ch it0 pos hw hh
    exact ⟨b1, b2, b3, b4⟩
  · simp only [if_neg h]
    exact hinit it0 h0

/-- C1 (amended): in the CanvasEditor.tsx variant — where the Stage equals
the canvas and drags are clamped through `dragBoundFunc` — any sequence of
drag moves keeps every layer inside
`0 ≤ x ≤ canvasWidth − width ∧ 0 ≤ y ≤ canvasHeight − height`, provided
each layer starts in bounds and fits the canvas; the part_004 variant does
not clamp (see the counterexample). -/
theorem dragMoveClamped_inBounds (cw ch : ℚ) (ops : List (String × ℚ × ℚ))
    (items : List FurnitureItem)
    (hfit : ∀ it ∈ items, it.width ≤ cw ∧ it.height ≤ ch)
    (hinit : ∀ it ∈ items, inCanvasBounds cw ch it) :
    ∀ it ∈ ops.foldl (fun acc op => dragMoveClamped cw ch op.1 op.2 acc) items,
      inCanvasBounds cw ch it := by
  induction ops generalizing items with
  | nil => simpa using hinit
  | cons op ops ih =>
    simp only [List.foldl_cons]
    exact ih _ (dragMoveClamped_step cw ch op.1 op.2 items hfit hinit).1
      (dragMoveClamped_step cw ch op.1 op.2 items hfit hinit).2

/-- Witness for C1 (amended): the same out-of-canvas drag attempt
`(-5, 600)` that escapes in the part_004 variant is clamped to `(0, 420)`
under the variant-1 pipeline, which is in bounds. -/
theorem dragMoveClamped_inBounds_witness :
    inCanvasBounds 960 540 { cxDragItem with x := 0, y := 420 } :=
  dragMoveClamped_inBounds 960 540 [("a", (-5, 600))] [cxDragItem]
    (by norm_num [cxDragItem]) (by norm_num [cxDragItem, inCanvasBounds])
    { cxDragItem with x := 0, y := 420 }
    (by norm_num [dragMoveClamped, dragBoundFunc, cxDragItem, max_def, min_def])

/-- C2 (code bug): with polygon mask mode and a usable 3-point polygon
(6 scalar coordinates), `itemsClipFunc` does produce the closed-polygon
clip path, but the JSX attaches no clip to the items layer
(`renderedItemsLayer … .clip = none`), so the stage point `(450, 300)` —
outside the polygon — is still painted by a layer there, where the claim
requires it to be transparent. -/
theorem polygon_mask_not_applied :
    itemsClipFunc MaskMode.polygon (polygonKonvaPoints triPoints)
      = some [0, 0, 10, 0, 10, 10] ∧
    (renderedItemsLayer [cxMaskItem] MaskMode.polygon triPoints).clip = none ∧
    layerPaintsAt (renderedItemsLayer [cxMaskItem] MaskMode.polygon triPoints)
      (450, 300) = true ∧
    pointInClosedPolygon triPoints (450, 300) = false := by
  refine ⟨by decide, rfl, ?_, ?_⟩
  · norm_num [layerPaintsAt, renderedItemsLayer, itemCovers, cxMaskItem]
  · norm_num [pointInClosedPolygon, edgeCrossesRay, triPoints, List.rotate]

/-- C4 counterexample: when the PNG encode throws, `doExport` exits with
the transformer handles still hidden (`[false]`), not restored to the
pre-export `[true]` — there is no try/finally around the encodes. -/
theorem doExport_error_keeps_overlays_hidden :
    (doExport (fun _ => Except.error "encode failed")
        (fun _ => Except.ok "jpeg") cxStage).1.transformersVisible = [false] ∧
    (doExport (fun _ => Except.error "encode failed")
        (fun _ => Except.ok "jpeg") cxStage).2 = Except.error "encode failed" ∧
    cxStage.transformersVisible = [true] :=
  ⟨rfl, rfl, rfl⟩

/-- C4 (amended): on the successful exit path `doExport` restores the
stage — transformer visibilities included — exactly to its pre-export
state; but on a throwing encode the error propagates with every
transformer left hidden (restoration does NOT happen on that exit path). -/
theorem doExport_overlay_restoration
    (encP encJ : StageState → Except String String) (st : StageState) :
    (∀ png jpeg, (doExport encP encJ st).2 = Except.ok (png, jpeg) →
      (doExport encP encJ st).1 = st) ∧
    (∀ e, (doExport encP encJ st).2 = Except.error e →
      (doExport encP encJ st).1.transformersVisible
        = st.transformersVisible.map (fun _ => false)) := by
  rw [doExport_eq]
  cases hP : encP { st with
      transformersVisible := st.transformersVisible.map (fun _ => false) } with
  | error e => exact ⟨fun png jpeg h => by simp at h, fun e h => rfl⟩
  | ok p =>
    cases hJ : encJ { st with
        transformersVisible := st.transformersVisible.map (fun _ => false) } with
    | error e => exact ⟨fun png jpeg h => by simp at h, fun e h => rfl⟩
    | ok j => exact ⟨fun png jpeg h => rfl, fun e h => by simp at h⟩

/-- Witness for C4 (amended): with both encoders succeeding on the
concrete stage, the post-export state equals the pre-export state. -/
theorem doExport_overlay_restoration_witness :
    (doExport (fun _ => Except.ok "png") (fun _ => Except.ok "jpeg")
        cxStage).1 = cxStage :=
  (doExport_overlay_restoration (fun _ => Except.ok "png")
    (fun _ => Except.ok "jpeg") cxStage).1 "png" "jpeg" rfl

/-- C9: export is idempotent — a successful `doExport` leaves the stage
state exactly as it was, so calling it again with no intervening scene
mutation reproduces the identical (byte-identical under the deterministic
encoders) PNG/JPEG pair and the identical state. -/
theorem doExport_idempotent (encP encJ : StageState → Except String String)
    (st st2 : StageState) (png jpeg : String)
    (h : doExport encP encJ st = (st2, Except.ok (png, jpeg))) :
    st2 = st ∧ doExport encP encJ st2 = (st2, Except.ok (png, jpeg)) := by
  rw [doExport_eq] at h
  cases hP : encP { st with
      transformersVisible := st.transformersVisible.map (fun _ => false) } with
  | error e => rw [hP] at h; simp at h
  | ok p =>
    rw [hP] at h
    cases hJ : encJ { st with
        transformersVisible := st.transformersVisible.map (fun _ => false) } with
    | error e => rw [hJ] at h; simp at h
    | ok j =>
      rw [hJ] at h
      simp only [Prod.mk.injEq, Except.ok.injEq] at h
      obtain ⟨hst, hpng, hjpeg⟩ := h
      subst hst
      refine ⟨rfl, ?_⟩
      rw [doExport_eq, hP, hJ, hpng, hjpeg]

/-- Witness for C9: two successive exports of the concrete stage agree. -/
theorem doExport_idempotent_witness :
    cxStage = cxStage ∧
    doExport (fun _ => Except.ok "p") (fun _ => Except.ok "j") cxStage
      = (cxStage, Except.ok ("p", "j")) :=
  doExport_idempotent (fun _ => Except.ok "p") (fun _ => Except.ok "j")
    cxStage cxStage "p" "j" rfl

/-- C5 counterexample: two `addToMoodboard` calls with the same
`Date.now()` value (same millisecond) produce two layers with EQUAL ids
`"u-0"`, contradicting the claimed distinctness of ids. -/
theorem addToMoodboard_same_timestamp_duplicate_ids :
    ((addToMoodboard "0" 0 0 "u" (addToMoodboard "0" 0 0 "u"
        emptyBuilderState)).draggableImages.map (fun img => img.id))
      = ["u-0", "u-0"] ∧
    ¬ ((addToMoodboard "0" 0 0 "u" (addToMoodboard "0" 0 0 "u"
        emptyBuilderState)).draggableImages.map (fun img => img.id)).Nodup :=
  ⟨by decide, by decide⟩

/-- C5 (amended): `addToMoodboard` appends exactly one layer at the end
with `x = rand·300 + 50 ∈ [50, 350)`, `y = rand·200 + 50 ∈ [50, 250)`,
size 120×120, no rotation and no flip (absent fields, read as 0 / false);
adding the same url twice to the empty scene yields two layers with that
url and instance count 2, whose ids are distinct PROVIDED the two
`Date.now()` strings differ, and whose positions are distinct PROVIDED the
random draws differ. -/
theorem addToMoodboard_spec
    (s : BuilderState) (url nowA nowB : String) (rxA ryA rxB ryB : ℚ)
    (h0xA : 0 ≤ rxA) (h1xA : rxA < 1) (h0yA : 0 ≤ ryA) (h1yA : ryA < 1)
    (h0xB : 0 ≤ rxB) (h1xB : rxB < 1) (h0yB : 0 ≤ ryB) (h1yB : ryB < 1)
    (hnow : nowA ≠ nowB) (hrx : rxA ≠ rxB) :
    (∃ newImg : DraggableImage,
      (addToMoodboard nowA rxA ryA url s).draggableImages
          = s.draggableImages ++ [newImg] ∧
      newImg.url = url ∧ newImg.width = 120 ∧ newImg.height = 120 ∧
      50 ≤ newImg.x ∧ newImg.x < 350 ∧ 50 ≤ newImg.y ∧ newImg.y < 250 ∧
      newImg.rotation.getD 0 = 0 ∧ newImg.flipHorizontal.getD false = false) ∧
    (addToMoodboard nowB rxB ryB url (addToMoodboard nowA rxA ryA url
        emptyBuilderState)).draggableImages.length = 2 ∧
    (∀ img ∈ (addToMoodboard nowB rxB ryB url (addToMoodboard nowA rxA ryA url
        emptyBuilderState)).draggableImages, img.url = url) ∧
    ((addToMoodboard nowB rxB ryB url (addToMoodboard nowA rxA ryA url
        emptyBuilderState)).draggableImages.map (fun img => img.id)).Nodup ∧
    ((addToMoodboard nowB rxB ryB url (addToMoodboard nowA rxA ryA url
        emptyBuilderState)).draggableImages.map (fun img => img.x)).Nodup ∧
    getInstanceCount (addToMoodboard nowB rxB ryB url
        (addToMoodboard nowA rxA ryA url
          emptyBuilderState)).draggableImages url = 2 := by
  have hid : (url ++ "-" ++ nowA) ≠ (url ++ "-" ++ nowB) := fun h =>
    hnow (string_append_cancel_left h)
  have hx : rxA * 300 + 50 ≠ rxB * 300 + 50 := by
    intro h
    exact hrx (mul_right_cancel₀ (by norm_num : (300 : ℚ) ≠ 0) (by linarith))
  refine ⟨⟨{ id := url ++ "-" ++ nowA
             url := url
             x := rxA * 300 + 50
             y := ryA * 200 + 50
             width := 120
             height := 120 }, rfl, rfl, rfl, rfl,
      by show (50 : ℚ) ≤ rxA * 300 + 50; nlinarith,
      by show rxA * 300 + 50 < (350 : ℚ); nlinarith,
      by show (50 : ℚ) ≤ ryA * 200 + 50; nlinarith,
      by show ryA * 200 + 50 < (250 : ℚ); nlinarith, rfl, rfl⟩,
    ?_, ?_, ?_, ?_, ?_⟩
  · simp [addToMoodboard, emptyBuilderState]
  · intro img himg
    simp only [addToMoodboard, emptyBuilderState, List.nil_append,
      List.cons_append, List.mem_cons, List.not_mem_nil, or_false,
      List.mem_singleton] at himg
    rcases himg with h | h <;> subst h <;> rfl
  · simp [addToMoodboard, emptyBuilderState, hid]
  · simp [addToMoodboard, emptyBuilderState, hx]
  · simp [getInstanceCount, addToMoodboard, emptyBuilderState]

/-- Witness for C5 (amended): distinct timestamps `"1"`, `"2"` and distinct
random draws 0 and 1/2 give two instances of url `"u"`. -/
theorem addToMoodboard_spec_witness :
    getInstanceCount (addToMoodboard "2" (1/2) (1/2) "u"
        (addToMoodboard "1" 0 0 "u" emptyBuilderState)).draggableImages "u" = 2 :=
  (addToMoodboard_spec emptyBuilderState "u" "1" "2" 0 0 (1/2) (1/2)
    le_rfl (by norm_num) le_rfl (by norm_num) (by norm_num) (by norm_num)
    (by norm_num) (by norm_num) (by decide) (by norm_num)).2.2.2.2.2

/-- C8 counterexample: over the observed token sequence
`[5, null, 5]` the editor fires NO export at all (`tokenRun` yields
`[false, false, false]`), while the claimed once-per-distinct-change
pattern (`specFireFlags`) expects `[false, true, true]`: a change to null
never fires and is not even recorded, so the following change back to 5 is
also missed. -/
theorem tokenRun_null_breaks_protocol :
    tokenRun none [some 5, none, some 5] = [false, false, false] ∧
    specFireFlags [some 5, none, some 5] = [false, true, true] :=
  ⟨by decide, by decide⟩

/-- After a non-null token has been recorded, the effect fires exactly on
distinct changes of further non-null tokens. -/
theorem tokenRun_from_some (p : ℤ) (ts : List ℤ) :
    tokenRun (some p) (ts.map some) = specFireFlagsFrom (some p) (ts.map some) := by
  induction ts generalizing p with
  | nil => rfl
  | cons t ts ih =>
    by_cases h : t = p
    · subst h
      simp [tokenRun, tokenStep, specFireFlagsFrom, ih]
    · simp [tokenRun, tokenStep, specFireFlagsFrom, h, ih]

/-- C8 (amended): for every sequence of NON-NULL observed token values,
the very first observed value never fires an export and thereafter an
export fires exactly once per distinct change of the token value — an
unchanged token never fires.  (With null observations interleaved the code
deviates: see the counterexample.) -/
theorem tokenRun_matches_spec_on_nonnull (ts : List ℤ) :
    tokenRun none (ts.map some) = specFireFlags (ts.map some) := by
  cases ts with
  | nil => rfl
  | cons t ts =>
    simp [tokenRun, tokenStep, specFireFlags, tokenRun_from_some]

end Moodboard
